import Mathlib

/-!
Verification development for the executive-ai-assistant repository.

The Python sources under `eaia/main/` (triage.py, graph.py, draft_response.py,
rewrite.py) are shallowly embedded below.  Pure helper functions become Lean
functions over `List Char` / `String`; the external LLM capabilities, the
LangGraph store and the retry loop are modelled with explicit parameters,
explicit state passing and an explicit fuel bound that exactly matches the
loop's maximal iteration count.
-/

namespace EAIA

/-! ## Python string primitives

`pyIn pat s` models Python's `pat in s` (and `re.search` for patterns without
metacharacters, on already-lowercased text).  Strings are handled as `List
Char`; `Char.toLower` models `str.lower()` (the repository only lowercases
ASCII subjects and bodies). -/

/-- Sub-list occurrence test on characters: Python `pat in s`. -/
def containsSeq (pat : List Char) : List Char → Bool
  | [] => pat.isEmpty
  | c :: t => pat.isPrefixOf (c :: t) || containsSeq pat t

/-- Python `pat in s` on strings. -/
def pyIn (pat s : String) : Bool := containsSeq pat.data s.data

/-- Python `pat in s` where `s` is an already lowercased character list. -/
def pyInL (pat : String) (s : List Char) : Bool := containsSeq pat.data s

/-- Python `s.lower()` as a character list. -/
def lowerL (s : String) : List Char := s.data.map Char.toLower

/-- Split a regex pattern at the (non-nested) `.*` wildcard occurrences. -/
def splitDotStar : List Char → List (List Char)
  | [] => [[]]
  | '.' :: '*' :: rest => [] :: splitDotStar rest
  | c :: rest =>
    match splitDotStar rest with
    | [] => [[c]]
    | h :: t => (c :: h) :: t

/-- Model of `re.search` for a pattern of the shape `p1.*p2`: some occurrence of `p1`
is followed, somewhere to its right, by an occurrence of `p2`.  (The sources
never feed newline-containing subjects to these patterns, so `.` is modelled
as matching any character.) -/
def dotStarSearch (p1 p2 : List Char) : List Char → Bool
  | [] => p1.isPrefixOf ([] : List Char) && containsSeq p2 (List.drop p1.length [])
  | c :: t =>
    (p1.isPrefixOf (c :: t) && containsSeq p2 ((c :: t).drop p1.length))
      || dotStarSearch p1 p2 t

/-- Model of `re.search(pattern, s)` for the fixed rule-set patterns of triage.py: a
literal pattern is a plain substring search, a single `.*` splits the pattern
in two parts searched in order.  The text is already lowercased, making
`re.IGNORECASE` a no-op. -/
def reSearch (pat : String) (s : List Char) : Bool :=
  match splitDotStar pat.data with
  | [p] => containsSeq p s
  | [p1, p2] => dotStarSearch p1 p2 s
  | _ => false

/-! ## Data model -/

/-- The email dictionary threaded through the graph (keys used by the
embedded functions: subject, page_content, from_email, to_email, id). -/
structure Email where
  subject : String
  page_content : String
  from_email : String
  to_email : String
  id : String
deriving Repr, DecidableEq

/-- Modelled from the spec: `eaia/schemas.py` is not part of the provided
sources.  Per spec section 3 the classification decision is one of a closed
category set plus a free-text rationale; the code reads the fields
`response` (compared against "no"/"email"/"notify"/"question") and
`logic`. -/
structure RespondTo where
  logic : String
  response : String
deriving Repr, DecidableEq

/-- One LangChain tool call: identifier, tool name, string-valued argument
dictionary (modelled as an association list in insertion order). -/
structure ToolCall where
  id : String
  name : String
  args : List (String × String)
deriving Repr, DecidableEq

/-- LangChain message classes collapsed to their isinstance class tags. -/
inductive MsgKind where
  | ai
  | human
  | tool
deriving Repr, DecidableEq

/-- A message on the action log.  `tool_calls` is `[]` both when the
attribute is an empty list and when the message class has no such attribute
(`hasattr` is false exactly for the non-AI classes). -/
structure Msg where
  kind : MsgKind
  id : String
  content : String
  tool_calls : List ToolCall
deriving Repr, DecidableEq

/-- The graph state snapshot read by the routing functions. -/
structure GState where
  email : Email
  triage : RespondTo
  messages : List Msg
deriving Repr, DecidableEq

/-! ## triage.py: the promotional pre-filter -/

/-- triage.py `PROMOTIONAL_INDICATORS`; the confidence floats 0.9 / 0.8 / 0.7
are exact decimals, stored here scaled by ten (9 / 8 / 7) so that the
comparisons `confidence > 0.8` and `confidence > 0.9` become `> 8` and
`> 9`. -/
def PROMOTIONAL_INDICATORS : List (String × String × Nat) :=
  [(("newsletter"), ("unsubscribe"), 9),
   (("nvidia.*news"), (""), 8),
   (("weekly digest"), (""), 7),
   (("personalized.*for you"), (""), 7)]

/-- triage.py `IMPORTANT_PATTERNS`. -/
def IMPORTANT_PATTERNS : List String :=
  [("assignment review"), ("interview"), ("job offer"),
   ("meeting invitation"), ("calendar invite")]

/-- triage.py `should_ignore_immediately`: the local promotional pre-filter.
`from_email` is computed by the source but never used. -/
def should_ignore_immediately (email : Email) : Bool :=
  let subject := lowerL email.subject
  let content := lowerL email.page_content
  if IMPORTANT_PATTERNS.any fun p => reSearch p subject || reSearch p content then
    false
  else if (pyInL ("invitation") subject || pyInL ("invited") subject
        || pyInL ("calendar") subject)
      && [("@"), ("at"), ("pm"), ("am")].any fun m => pyInL m subject then
    false
  else
    PROMOTIONAL_INDICATORS.any fun rule =>
      let subject_match := if rule.1 ≠ ("") then reSearch rule.1 subject else false
      let content_match := if rule.2.1 ≠ ("") then reSearch rule.2.1 content else false
      (subject_match && content_match && decide (rule.2.2 > 8))
        || (subject_match && decide (rule.2.2 > 9))
        || (content_match && decide (rule.2.2 > 9))

/-- The hard-coded `RespondTo` produced by `triage_input` when the pre-filter
fires. -/
def promoIgnoreResponse : RespondTo :=
  { logic := ("This is clearly promotional content that can be safely ignored."),
    response := ("no") }

/-- Partial state update returned by `triage_input`: the new decision plus
the ids of the `RemoveMessage` markers (one per pre-existing message). -/
structure TriageUpdate where
  triage : RespondTo
  removeIds : List String
deriving Repr, DecidableEq

/-- triage.py `triage_input`.  The external classification capability is an
oracle argument `llm`; the returned Boolean records whether that external
call was made.  Both exits rebuild the same update shape: a `RemoveMessage`
per existing message id when the message list is non-empty. -/
def triage_input (llm : RespondTo) (email : Email) (messages : List Msg) :
    TriageUpdate × Bool :=
  if should_ignore_immediately email then
    ({ triage := promoIgnoreResponse,
       removeIds := if messages.length > 0 then messages.map fun m => m.id else [] },
     false)
  else
    ({ triage := llm,
       removeIds := if messages.length > 0 then messages.map fun m => m.id else [] },
     true)

/-- The spec scenario email of claim C1. -/
def c1Email : Email :=
  { subject := ("Weekly NVIDIA news digest — unsubscribe"),
    page_content := ("If you no longer wish to receive these emails, unsubscribe here."),
    from_email := ("news@nvidia.com"),
    to_email := ("me@example.com"),
    id := ("e1") }

/-! ## graph.py: conditional routing functions and edge table -/

/-- The LangGraph terminal sentinel `END`. -/
def END : String := ("__end__")

/-- gmail_agent_node.py `should_use_gmail_agent`.  In the embedding the
triage field is always present; the source additionally guards against a
missing attribute, which cannot occur on the typed state. -/
def should_use_gmail_agent (state : GState) : String :=
  if state.triage.response = ("email") then
    let content := lowerL state.email.page_content
    let subject := lowerL state.email.subject
    let keywords := [("draft"), ("gmail"), ("email drafts"), ("save email"),
      ("prepare email"), ("write email")]
    if (keywords.any fun k => pyInL k content) || (keywords.any fun k => pyInL k subject) then
      ("gmail_agent_node")
    else ("draft_response")
  else ("draft_response")

/-- graph.py `route_after_triage`. -/
def route_after_triage (state : GState) : String :=
  if should_ignore_immediately state.email then ("mark_as_read_node")
  else
    let subject := lowerL state.email.subject
    if state.triage.response = ("email") then should_use_gmail_agent state
    else if state.triage.response = ("no") then ("mark_as_read_node")
    else if state.triage.response = ("notify") then
      if pyInL ("invitation") subject
          && [("@"), ("at"), ("pm"), ("am")].any (fun m => pyInL m subject) then
        if [("assignment"), ("interview"), ("review"), ("job")].any
            (fun c => pyInL c subject) then
          ("draft_response")
        else ("notify")
      else ("notify")
    else if state.triage.response = ("question") then ("draft_response")
    else ("mark_as_read_node")

/-- graph.py `take_action`.  The source indexes `state["messages"][-1]`,
which raises on an empty list; that partiality is the `none` case. -/
def take_action (state : GState) : Option String :=
  match state.messages.getLast? with
  | none => none
  | some prediction =>
    some (match prediction.tool_calls.head? with
      | none => ("mark_as_read_node")
      | some tool_call =>
        if tool_call.name = ("Question") then ("send_message")
        else if tool_call.name = ("ResponseEmailDraft") then ("rewrite")
        else if tool_call.name = ("Ignore") then ("mark_as_read_node")
        else if tool_call.name = ("MeetingAssistant") then ("find_meeting_time")
        else if tool_call.name = ("SendCalendarInvite") then ("send_cal_invite")
        else ("bad_tool_name"))

/-- graph.py `enter_after_human`: the checkpoint's successor-selection
function, inspecting the tail of the action log. -/
def enter_after_human (state : GState) : String :=
  match state.messages.getLast? with
  | none =>
    if state.triage.response = ("notify") then ("mark_as_read_node")
    else ("draft_response")
  | some m =>
    match m.kind with
    | MsgKind.tool => ("draft_response")
    | MsgKind.human => ("draft_response")
    | MsgKind.ai =>
      match m.tool_calls.head? with
      | none => ("draft_response")
      | some execute =>
        if execute.name = ("ResponseEmailDraft") then ("send_email_node")
        else if execute.name = ("SendCalendarInvite") then ("send_cal_invite_node")
        else if execute.name = ("Ignore") then ("mark_as_read_node")
        else if execute.name = ("Question") then ("draft_response")
        else ("draft_response")

/-- graph.py: the unconditional edge table registered on the graph
builder. -/
def graph_edges : List (String × String) :=
  [(("initialize"), ("triage_input")),
   (("gmail_agent_node"), ("human_node")),
   (("send_message"), ("human_node")),
   (("send_cal_invite"), ("human_node")),
   (("find_meeting_time"), ("human_node")),
   (("bad_tool_name"), ("draft_response")),
   (("send_cal_invite_node"), ("human_node")),
   (("send_email_node"), ("mark_as_read_node")),
   (("rewrite"), ("send_email_draft")),
   (("send_email_draft"), ("human_node")),
   (("mark_as_read_node"), END),
   (("notify"), ("human_node"))]

/-! ## The retry policy (triage.py / draft_response.py
`retry_with_exponential_backoff`)

Exceptions are modelled by `PyErr`; an operation is a function from the
call index (how many calls happened before) to an outcome, so that
"fails k times, then succeeds" is expressible.  The loop `while True:` is
bounded in the source by the guard `retries < max_retries`; the embedding
carries fuel `max_retries + 1 - retries`, which exactly bounds the number
of remaining calls, so the fuel-exhausted branch is unreachable and is
given the same call-then-return behaviour. -/

/-- Python exception classes relevant to the retry wrappers. -/
inductive PyErr where
  | internalServerError (msg : String)
  | valueError (msg : String)
  | otherExc (msg : String)
deriving Repr, DecidableEq

/-- Python `str(e)` for the modelled exceptions. -/
def errStr : PyErr → String
  | PyErr.internalServerError m => m
  | PyErr.valueError m => m
  | PyErr.otherExc m => m

/-- Test for `"overloaded_error" in str(e).lower()`. -/
def isOverloaded (e : PyErr) : Bool :=
  containsSeq ("overloaded_error").data (lowerL (errStr e))

/-- triage.py wrapper: only an overloaded `InternalServerError` is retried;
anything else propagates at once (the `except` clause re-raises, other
exception classes are not caught at all). -/
def retryable_triage : PyErr → Bool
  | PyErr.internalServerError m => isOverloaded (PyErr.internalServerError m)
  | _ => false

/-- draft_response.py wrapper: an overloaded `InternalServerError` is
retried, a non-overloaded one re-raised, and every other exception is
retried by the generic `except Exception` clause. -/
def retryable_draft : PyErr → Bool
  | PyErr.internalServerError m => isOverloaded (PyErr.internalServerError m)
  | _ => true

/-- The retry loop.  State: `fuel` (remaining permitted calls), `retries`
(failures so far, the source's `retries` variable) and the wait times
inserted so far.  On a failure with `retryable e` and `retries <
max_retries` the source sets `retries += 1` and sleeps
`delay * 2 ** (retries - 1)`, i.e. `initial_delay * 2 ^ retries` in terms
of the pre-increment value. -/
def retryGo {α : Type} (op : Nat → Except PyErr α) (rb : PyErr → Bool)
    (max_retries initial_delay : Nat) :
    Nat → Nat → List Nat → Except PyErr α × List Nat
  | 0, retries, waits =>
    (match op retries with
     | Except.ok a => (Except.ok a, waits)
     | Except.error e => (Except.error e, waits))
  | fuel + 1, retries, waits =>
    (match op retries with
     | Except.ok a => (Except.ok a, waits)
     | Except.error e =>
       if rb e then
         if retries < max_retries then
           retryGo op rb max_retries initial_delay fuel (retries + 1)
             (waits ++ [initial_delay * 2 ^ retries])
         else (Except.error e, waits)
       else (Except.error e, waits))

/-- The wrapper `retry_with_exponential_backoff(func, max_retries, initial_delay)`,
returning the final outcome together with the list of inserted backoff
delays (the simulated `asyncio.sleep` durations, in order). -/
def retry_with_exponential_backoff {α : Type} (op : Nat → Except PyErr α)
    (rb : PyErr → Bool) (max_retries initial_delay : Nat) :
    Except PyErr α × List Nat :=
  retryGo op rb max_retries initial_delay (max_retries + 1) 0 []

/-- The first `n` backoff terms starting at exponent `r`:
`[d * 2 ^ r, d * 2 ^ (r + 1), ...]`. -/
def waitsFrom (d r : Nat) : Nat → List Nat
  | 0 => []
  | n + 1 => d * 2 ^ r :: waitsFrom d (r + 1) n

/-- An operation that fails with `e` on its first `k` calls and afterwards
returns `a`. -/
def failsThenSucceeds {α : Type} (k : Nat) (e : PyErr) (a : α) :
    Nat → Except PyErr α :=
  fun n => if n < k then Except.error e else Except.ok a

theorem waitsFrom_get? (d : Nat) :
    ∀ n r i, i < n → (waitsFrom d r n).get? i = some (d * 2 ^ (r + i)) := by
  intro n
  induction n with
  | zero => intro r i h; omega
  | succ m ih =>
    intro r i h
    cases i with
    | zero => simp [waitsFrom]
    | succ j =>
      have hj : j < m := by omega
      have := ih (r + 1) j hj
      simpa [waitsFrom, Nat.add_assoc, Nat.add_comm 1 j] using this

theorem retryGo_err {α : Type} (op : Nat → Except PyErr α) (rb : PyErr → Bool)
    (e : PyErr) (max_retries d : Nat)
    (hop : ∀ n, n ≤ max_retries → op n = Except.error e) (he : rb e = true) :
    ∀ fuel r ws, r ≤ max_retries → fuel = max_retries + 1 - r →
      retryGo op rb max_retries d fuel r ws
        = (Except.error e, ws ++ waitsFrom d r (max_retries - r)) := by
  intro fuel
  induction fuel with
  | zero => intro r ws hr hf; omega
  | succ fuel ih =>
    intro r ws hr hf
    rw [retryGo, hop r hr]
    simp only [he, if_true]
    by_cases hlt : r < max_retries
    · rw [if_pos hlt, ih (r + 1) (ws ++ [d * 2 ^ r]) (by omega) (by omega)]
      have hm : max_retries - r = (max_retries - (r + 1)) + 1 := by omega
      rw [hm, waitsFrom, List.append_assoc]
      rfl
    · have hrm : r = max_retries := by omega
      rw [if_neg hlt]
      subst hrm
      simp [waitsFrom]

theorem retryGo_ok {α : Type} (op : Nat → Except PyErr α) (rb : PyErr → Bool)
    (e : PyErr) (a : α) (k max_retries d : Nat) (hk : k ≤ max_retries)
    (hop1 : ∀ n, n < k → op n = Except.error e) (hop2 : op k = Except.ok a)
    (he : rb e = true) :
    ∀ fuel r ws, r ≤ k → fuel = max_retries + 1 - r →
      retryGo op rb max_retries d fuel r ws
        = (Except.ok a, ws ++ waitsFrom d r (k - r)) := by
  intro fuel
  induction fuel with
  | zero => intro r ws hr hf; omega
  | succ fuel ih =>
    intro r ws hr hf
    by_cases hlt : r < k
    · rw [retryGo, hop1 r hlt]
      simp only [he, if_true]
      rw [if_pos (by omega), ih (r + 1) (ws ++ [d * 2 ^ r]) (by omega) (by omega)]
      have hm : k - r = (k - (r + 1)) + 1 := by omega
      rw [hm, waitsFrom, List.append_assoc]
      rfl
    · have hrk : r = k := by omega
      subst hrk
      rw [retryGo, hop2]
      simp [waitsFrom]

/-! ## draft_response.py: the drafting stage

The external generation capability is an oracle `llmOut` from the call
index to either a transient failure or a raw message; the stage logic
around it (no-tool-call detection, the personal-email fallback, the retry
wrapper, the outer catch) is embedded from the source. -/

/-- Python `s.split()` (split on whitespace runs, dropping empties), on a
character list; `acc` carries the current word reversed. -/
def splitWSAux (acc : List Char) : List Char → List (List Char)
  | [] => if acc.isEmpty then [] else [acc.reverse]
  | c :: t =>
    if c.isWhitespace then
      if acc.isEmpty then splitWSAux [] t else acc.reverse :: splitWSAux [] t
    else splitWSAux (c :: acc) t

/-- Python `s.split()` word list. -/
def splitWS (s : List Char) : List (List Char) := splitWSAux [] s

/-- Python `str.capitalize()`: first character upper-cased, rest
lower-cased (ASCII suffices for the embedded inputs). -/
def pyCapitalize (s : String) : String :=
  ((s.take 1).map Char.toUpper) ++ ((s.drop 1).map Char.toLower)

/-- draft_response.py `is_personal_email`: the narrow "low-stakes personal"
heuristic used as stage-local fallback trigger. -/
def is_personal_email (email : Email) : Bool :=
  let subject := lowerL email.subject
  let content := lowerL email.page_content
  let from_email := lowerL email.from_email
  let personal_domains := [("gmail.com"), ("yahoo.com"), ("outlook.com"),
    ("hotmail.com"), ("icloud.com")]
  let is_from_personal_domain := personal_domains.any fun dm => pyInL dm from_email
  let personal_indicators := [("catch up"), ("how are you"), ("miss you"),
    ("coffee"), ("lunch"), ("friend")]
  let has_personal_language := personal_indicators.any fun ind =>
    pyInL ind content || pyInL ind subject
  let is_short_casual := decide ((splitWS content).length < 30)
    && [("hi"), ("hey"), ("hello")].any fun g => containsSeq g.data (content.take 10)
  (is_from_personal_domain && (has_personal_language || is_short_casual))
    || (has_personal_language && is_short_casual)

/-- draft_response.py `generate_personal_response`.  Note the source's
`len(sender_name) > 0` guard is always true because `str.split` never
returns an empty list. -/
def generate_personal_response (email : Email) (name : String) : String :=
  let sender_name :=
    pyCapitalize ((((email.from_email.splitOn ("@")).headD ("")).splitOn (".")).headD (""))
  let content := lowerL email.page_content
  if [("meet"), ("catch up"), ("coffee"), ("lunch"), ("dinner")].any
      (fun p => pyInL p content) then
    ("Hi ") ++ sender_name ++
      (",\n\nGreat to hear from you! I\x27d love to catch up. How about sometime next week? I\x27m free on Tuesday afternoon or Thursday after 5.\n\nLet me know what works for you!\n\nBest,\n")
      ++ name
  else
    ("Hi ") ++ sender_name ++
      (",\n\nGreat to hear from you! Thanks for reaching out. Things have been busy on my end with finishing up my degree and working on some exciting AI projects.\n\nHow have you been? What\x27s new in your world?\n\nBest,\n")
      ++ name

/-- The default `ResponseEmailDraft` AIMessage synthesized by the drafting
stage for low-stakes personal emails (the source stores the generated text
under the key "arguments"; the argument dictionary itself is modelled
uniformly under `args`). -/
def fallback_response_toolcall (email : Email) (name tcId : String) : ToolCall :=
  { id := tcId
    name := ("ResponseEmailDraft")
    args := [(("content"), generate_personal_response email name),
             (("new_recipients"), ("[]"))] }

/-- The full fallback AIMessage wrapping `fallback_response_toolcall`. -/
def fallback_response_msg (email : Email) (name tcId : String) : Msg :=
  { kind := MsgKind.ai, id := (""), content := (""),
    tool_calls := [fallback_response_toolcall email name tcId] }

/-- The `ValueError` message raised on a protocol violation. -/
def noToolCallErrMsg : String := ("LLM did not return a tool call.")

/-- draft_response.py `invoke_llm_with_retry` (the operation handed to the
retry wrapper): calls the generation capability; on a response without tool
calls, either synthesizes the personal fallback or raises `ValueError`. -/
def invoke_llm_with_retry (llmOut : Nat → Except PyErr Msg) (email : Email)
    (name : String) : Nat → Except PyErr Msg :=
  fun n =>
    match llmOut n with
    | Except.error e => Except.error e
    | Except.ok response =>
      if response.tool_calls.isEmpty then
        if is_personal_email email then
          Except.ok (fallback_response_msg email name ("response_draft_tool_call"))
        else Except.error (PyErr.valueError noToolCallErrMsg)
      else Except.ok response

/-- draft_response.py `draft_response`, reduced to its LLM-call core: the
retry-wrapped `invoke_llm_with_retry` plus the outer `try/except` that
falls back for personal emails and otherwise wraps the last error in a new
`ValueError`.  Returns the outcome and the inserted backoff delays. -/
def draft_llm_step (llmOut : Nat → Except PyErr Msg) (email : Email)
    (name : String) (max_retries initial_delay : Nat) :
    Except PyErr Msg × List Nat :=
  match retry_with_exponential_backoff (invoke_llm_with_retry llmOut email name)
      retryable_draft max_retries initial_delay with
  | (Except.ok m, ws) => (Except.ok m, ws)
  | (Except.error e, ws) =>
    if is_personal_email email then
      (Except.ok (fallback_response_msg email name ("response_draft_fallback")), ws)
    else
      (Except.error (PyErr.valueError
        (("Failed to get valid tool call from LLM after retries. Last error: ")
          ++ errStr e)), ws)

/-- A raw generation response carrying no tool call at all. -/
def noToolMsg : Msg :=
  { kind := MsgKind.ai, id := ("m1"), content := ("Sure, happy to help."),
    tool_calls := [] }

/-- A clearly non-personal email: corporate sender, no personal keywords,
no casual greeting in the first ten characters. -/
def nonPersonalEmail : Email :=
  { subject := ("Quarterly compliance report"),
    page_content := ("The quarterly compliance report is attached. Review the figures and reply with corrections before Friday."),
    from_email := ("compliance@corp.example.com"),
    to_email := ("me@example.com"),
    id := ("e3") }

/-- A clearly personal email: personal domain plus personal keywords. -/
def personalEmail : Email :=
  { subject := ("catching up"),
    page_content := ("hey, want to catch up over coffee next week?"),
    from_email := ("john@gmail.com"),
    to_email := ("me@example.com"),
    id := ("e4") }

/-! ## The preference store and the stage reads

Modelled from the spec: the store backend (`langgraph` `BaseStore`) is an
external collaborator; spec sections 3 and 6 give it namespaced
`get(key) -> value | absent` and `put(key, value) -> ack` with
last-write-wins per key.  Stored values are the JSON objects the
repository writes, i.e. dictionaries that may or may not carry a
`"data"` field (the source checks `result and "data" in result.value`). -/

/-- A stored entry: the optional `"data"` payload of the stored dict. -/
structure StoreVal where
  data : Option String
deriving Repr, DecidableEq

/-- The store: association list from (namespace element, key) to value;
the namespace is the 1-tuple `(assistant_id,)`. -/
abbrev Store := List ((String × String) × StoreVal)

/-- Model of `store.get(namespace, key)`. -/
def store_get (s : Store) (ns key : String) : Option StoreVal :=
  (s.find? fun e => decide (e.1 = (ns, key))).map fun e => e.2

/-- Model of `store.put(namespace, key, value)`: last write wins per key. -/
def store_put (s : Store) (ns key : String) (v : StoreVal) : Store :=
  ((ns, key), v) :: s.filter fun e => !(decide (e.1 = (ns, key)))

/-- The shared read pattern of draft_response.py and rewrite.py: fetch the
key; if a stored `"data"` payload exists use it, otherwise write the
statically supplied default back and use the default. -/
def get_or_seed (s : Store) (ns key dflt : String) : String × Store :=
  match store_get s ns key with
  | some v =>
    (match v.data with
     | some d => (d, s)
     | none => (dflt, store_put s ns key { data := some dflt }))
  | none => (dflt, store_put s ns key { data := some dflt })

/-- The static configuration record (config.yaml / configurable keys read
by the embedded stages). -/
structure Config where
  name : String
  full_name : String
  background : String
  schedule_preferences : String
  background_preferences : String
  response_preferences : String
  rewrite_preferences : String
deriving Repr, DecidableEq

/-- draft_response.py: the three preference reads performed before the
prompt is built, in source order.  Note the `random_preferences` key is
seeded from the config's `background_preferences` default. -/
def draft_response_prefs (cfg : Config) (s : Store) (aid : String) :
    (String × String × String) × Store :=
  match get_or_seed s aid ("schedule_preferences") cfg.schedule_preferences with
  | (sched, s1) =>
    match get_or_seed s1 aid ("random_preferences") cfg.background_preferences with
    | (rand, s2) =>
      match get_or_seed s2 aid ("response_preferences") cfg.response_preferences with
      | (resp, s3) => ((sched, rand, resp), s3)

/-- rewrite.py: the single `rewrite_instructions` read, seeded from the
config's `rewrite_preferences`. -/
def rewrite_instructions_pref (cfg : Config) (s : Store) (aid : String) :
    String × Store :=
  get_or_seed s aid ("rewrite_instructions") cfg.rewrite_preferences

/-! ## rewrite.py: the refinement stage -/

/-- Lookup in a Python-dict association list. -/
def lookupArg (args : List (String × String)) (k : String) : Option String :=
  (args.find? fun e => decide (e.1 = k)).map fun e => e.2

/-- Python `{**args, "content": c}`: every key keeps its value except
`"content"`, which is set to `c` (updated in place when present, appended
otherwise — CPython dict ordering). -/
def dict_set_content (args : List (String × String)) (c : String) :
    List (String × String) :=
  if args.any fun e => decide (e.1 = ("content")) then
    args.map fun e => if e.1 = ("content") then (e.1, c) else e
  else args ++ [(("content"), c)]

/-- rewrite.py `rewrite`.  The external rewrite capability's validated
`rewritten_content` field is the oracle argument `rc`; the stage reads the
draft from the last message's first tool call (`none` models the
IndexError/KeyError raised on a malformed state), seeds the rewrite
instructions, and rebuilds the assistant message with only the `content`
argument replaced. -/
def rewrite (rc : String) (state : GState) (cfg : Config) (s : Store)
    (aid : String) : Option (Msg × Store) :=
  match state.messages.getLast? with
  | none => none
  | some prev =>
    match prev.tool_calls.head? with
    | none => none
    | some tc =>
      match lookupArg tc.args ("content") with
      | none => none
      | some _draft =>
        some ({ kind := MsgKind.ai, id := prev.id, content := prev.content,
                tool_calls := [{ id := tc.id, name := tc.name,
                                 args := dict_set_content tc.args rc }] },
              (rewrite_instructions_pref cfg s aid).2)

/-! ## Concrete sample states used by the claim witnesses -/

/-- A sample static configuration. -/
def cfgSample : Config :=
  { name := ("Aryan"), full_name := ("Aryan Gadroo"), background := ("bg"),
    schedule_preferences := ("sp"), background_preferences := ("bp"),
    response_preferences := ("rp"), rewrite_preferences := ("rw") }

/-- The approved `ResponseEmailDraft` tool call used in the samples. -/
def respDraftTc : ToolCall :=
  { id := ("t1"), name := ("ResponseEmailDraft"),
    args := [(("content"), ("draft body")), (("new_recipients"), ("[]"))] }

/-- An AI message carrying an approved `ResponseEmailDraft` tool call. -/
def respDraftMsg : Msg :=
  { kind := MsgKind.ai, id := ("a1"), content := (""),
    tool_calls := [respDraftTc] }

/-- The message produced by `rewrite` on `c4RespState` with rewritten
content "rewritten body". -/
def c7Out : Msg :=
  { kind := MsgKind.ai, id := ("a1"), content := (""),
    tool_calls := [{ id := ("t1"), name := ("ResponseEmailDraft"), args := [(("content"), ("rewritten body")), (("new_recipients"), ("[]"))] }] }

/-- A human-provided answer appended after a clarifying question. -/
def humanAnswerMsg : Msg :=
  { kind := MsgKind.human, id := ("h1"), content := ("the answer"), tool_calls := [] }

/-- Resumed checkpoint state whose log tail is the approved reply draft. -/
def c4RespState : GState :=
  { email := c1Email, triage := promoIgnoreResponse, messages := [respDraftMsg] }

/-- Resumed checkpoint state whose log tail is the human answer. -/
def c4HumanState : GState :=
  { email := c1Email, triage := promoIgnoreResponse, messages := [humanAnswerMsg] }

/-- A plain snapshot used to instantiate the determinism claim. -/
def c8State : GState :=
  { email := c1Email, triage := promoIgnoreResponse, messages := [] }

/-- Drafting output without any tool call, at the end of the log. -/
def c9State : GState :=
  { email := c1Email, triage := promoIgnoreResponse, messages := [noToolMsg] }

/-- A `notify` decision over an email that trips the promotional
pre-filter. -/
def c10PromoState : GState :=
  { email := { subject := ("newsletter"),
               page_content := ("click here to unsubscribe"),
               from_email := ("promo@example.com"),
               to_email := ("me@example.com"), id := ("e10") },
    triage := { logic := ("x"), response := ("notify") },
    messages := [] }

/-- A `notify` decision over a career meeting invitation. -/
def c10InviteState : GState :=
  { email := { subject := ("Invitation: final interview @ 3pm"),
               page_content := ("Please confirm your availability."),
               from_email := ("hr@corp.example.com"),
               to_email := ("me@example.com"), id := ("e11") },
    triage := { logic := ("x"), response := ("notify") },
    messages := [] }

/-- A `notify` decision over a plain status email. -/
def c10PlainState : GState :=
  { email := { subject := ("Server maintenance window"),
               page_content := ("The cluster will be down on Sunday."),
               from_email := ("ops@corp.example.com"),
               to_email := ("me@example.com"), id := ("e12") },
    triage := { logic := ("x"), response := ("notify") },
    messages := [] }

/-! ## Helper lemmas -/

theorem store_get_put_same (s : Store) (ns k : String) (v : StoreVal) :
    store_get (store_put s ns k v) ns k = some v := by
  simp [store_get, store_put, List.find?]

theorem find?_filter_put (tl : Store) (ns k k' : String) (hne2 : k' ≠ k) :
    List.find? (fun e => decide (e.1 = (ns, k')))
        (tl.filter fun e => !(decide (e.1 = (ns, k))))
      = List.find? (fun e => decide (e.1 = (ns, k'))) tl := by
  induction tl with
  | nil => rfl
  | cons hd tl ih =>
    by_cases hh : hd.1 = (ns, k)
    · have hm : ¬(hd.1 = (ns, k')) := by
        rw [hh]
        intro hc
        exact hne2 ((congrArg Prod.snd hc).symm)
      rw [List.filter_cons_of_neg (by simp [hh]),
        List.find?_cons_of_neg _ (by simp [hm])]
      exact ih
    · rw [List.filter_cons_of_pos (by simp [hh])]
      by_cases hm : hd.1 = (ns, k')
      · rw [List.find?_cons_of_pos _ (by simp [hm]),
          List.find?_cons_of_pos _ (by simp [hm])]
      · rw [List.find?_cons_of_neg _ (by simp [hm]),
          List.find?_cons_of_neg _ (by simp [hm])]
        exact ih

theorem store_get_put_ne (s : Store) (ns k k' : String) (v : StoreVal)
    (h : k' ≠ k) :
    store_get (store_put s ns k v) ns k' = store_get s ns k' := by
  have hne : ¬((ns, k) = (ns, k')) := fun hc => h ((congrArg Prod.snd hc).symm)
  simp only [store_get, store_put]
  rw [List.find?_cons_of_neg _ (by simpa using hne), find?_filter_put s ns k k' h]

theorem get_or_seed_none (s : Store) (ns key dflt : String)
    (h : store_get s ns key = none) :
    get_or_seed s ns key dflt = (dflt, store_put s ns key { data := some dflt }) := by
  simp [get_or_seed, h]

theorem get_or_seed_some (s : Store) (ns key dflt v : String)
    (h : store_get s ns key = some { data := some v }) :
    get_or_seed s ns key dflt = (v, s) := by
  simp [get_or_seed, h]

theorem lookupArg_set_content (args : List (String × String)) (c : String) :
    lookupArg (dict_set_content args c) ("content") = some c := by
  unfold dict_set_content
  by_cases h : args.any fun e => decide (e.1 = ("content"))
  · rw [if_pos h]
    induction args with
    | nil => simp at h
    | cons hd tl ih =>
      by_cases hh : hd.1 = ("content")
      · simp [lookupArg, List.find?, hh]
      · rw [List.any_cons] at h
        simp only [hh, decide_False, Bool.false_or] at h
        simp only [List.map_cons, if_neg hh]
        rw [lookupArg, List.find?]
        simp only [hh, decide_False]
        exact ih h
  · rw [if_neg h]
    induction args with
    | nil => simp [lookupArg, List.find?]
    | cons hd tl ih =>
      rw [List.any_cons] at h
      simp only [Bool.or_eq_true, not_or] at h
      have hh : ¬(hd.1 = ("content")) := by
        intro hc
        exact h.1 (by simp [hc])
      simp only [List.cons_append]
      rw [lookupArg, List.find?]
      simp only [hh, decide_False]
      exact ih (by simpa using h.2)

theorem lookupArg_map_content (args : List (String × String)) (c k : String)
    (hk : k ≠ ("content")) :
    lookupArg (args.map fun e => if e.1 = ("content") then (e.1, c) else e) k
      = lookupArg args k := by
  induction args with
  | nil => rfl
  | cons hd tl ih =>
    by_cases hh : hd.1 = ("content")
    · have hne : ¬(hd.1 = k) := by rw [hh]; exact fun hc => hk hc.symm
      simp only [List.map_cons, if_pos hh]
      rw [lookupArg, List.find?, lookupArg, List.find?]
      simp only [hne, decide_False]
      exact ih
    · simp only [List.map_cons, if_neg hh]
      rw [lookupArg, List.find?, lookupArg, List.find?]
      by_cases hm : hd.1 = k
      · simp [hm]
      · simp only [hm, decide_False]
        exact ih

theorem lookupArg_append_single_ne (args : List (String × String)) (c k : String)
    (hk : k ≠ ("content")) :
    lookupArg (args ++ [(("content"), c)]) k = lookupArg args k := by
  induction args with
  | nil =>
    simp only [List.nil_append]
    rw [lookupArg, List.find?]
    have : ¬((("content"), c).1 = k) := fun hc => hk hc.symm
    simp [this, lookupArg, List.find?]
  | cons hd tl ih =>
    simp only [List.cons_append]
    rw [lookupArg, List.find?, lookupArg, List.find?]
    by_cases hm : hd.1 = k
    · simp [hm]
    · simp only [hm, decide_False]
      exact ih

theorem lookupArg_set_content_ne (args : List (String × String)) (c k : String)
    (hk : k ≠ ("content")) :
    lookupArg (dict_set_content args c) k = lookupArg args k := by
  unfold dict_set_content
  by_cases h : args.any fun e => decide (e.1 = ("content"))
  · rw [if_pos h]
    exact lookupArg_map_content args c k hk
  · rw [if_neg h]
    exact lookupArg_append_single_ne args c k hk

/-! ## Claim theorems -/

/-- Claim C1: the spec scenario email (subject "Weekly NVIDIA news digest —
unsubscribe", body containing "unsubscribe") is NOT caught by
`should_ignore_immediately`: although the `nvidia.*news` deny-list pattern
matches the subject, its confidence 0.8 can never clear the `> 0.8` /
`> 0.9` thresholds, so `triage_input` proceeds to invoke the external
classification capability instead of recording `ignore` locally.  This
theorem documents the divergence between the code and the claimed (and
intended, per the source comments) behaviour. -/
theorem c1_prefilter_not_triggered :
    reSearch ("nvidia.*news") (lowerL c1Email.subject) = true ∧
    pyInL ("unsubscribe") (lowerL c1Email.page_content) = true ∧
    should_ignore_immediately c1Email = false ∧
    (triage_input { logic := ("?"), response := ("no") } c1Email []).2 = true := by
  exact ⟨by decide, by decide, by decide, by decide⟩

/-- Claim C2 (amended): for the retry policy with `max_retries` retries and
base delay `d`, the delay inserted before attempt `j` (`j ≥ 2`) is
`d * 2 ^ (j - 2)`; an operation failing transiently `k ≤ max_retries` times
then succeeding yields the success value after exactly the first `k`
backoff terms; with `k > max_retries` the original last error propagates
unchanged (not wrapped) after `max_retries` backoff terms. -/
theorem c2_retry_policy {α : Type} (k max_retries d : Nat) (e : PyErr) (a : α)
    (he : retryable_draft e = true) :
    ((retry_with_exponential_backoff (failsThenSucceeds k e a) retryable_draft
        max_retries d).2 = waitsFrom d 0 (min k max_retries)) ∧
    (∀ j, 2 ≤ j → j ≤ min k max_retries + 1 →
      (retry_with_exponential_backoff (failsThenSucceeds k e a) retryable_draft
          max_retries d).2.get? (j - 2) = some (d * 2 ^ (j - 2))) ∧
    (k ≤ max_retries →
      retry_with_exponential_backoff (failsThenSucceeds k e a) retryable_draft
          max_retries d = (Except.ok a, waitsFrom d 0 k)) ∧
    (max_retries < k →
      retry_with_exponential_backoff (failsThenSucceeds k e a) retryable_draft
          max_retries d = (Except.error e, waitsFrom d 0 max_retries)) := by
  have hok : k ≤ max_retries →
      retry_with_exponential_backoff (failsThenSucceeds k e a) retryable_draft
          max_retries d = (Except.ok a, waitsFrom d 0 k) := by
    intro hk
    have h := retryGo_ok (failsThenSucceeds k e a) retryable_draft e a k
      max_retries d hk (fun n hn => by simp [failsThenSucceeds, hn])
      (by simp [failsThenSucceeds]) he (max_retries + 1) 0 [] (Nat.zero_le _)
      (by omega)
    simpa [retry_with_exponential_backoff] using h
  have herr : max_retries < k →
      retry_with_exponential_backoff (failsThenSucceeds k e a) retryable_draft
          max_retries d = (Except.error e, waitsFrom d 0 max_retries) := by
    intro hk
    have h := retryGo_err (failsThenSucceeds k e a) retryable_draft e
      max_retries d (fun n hn => by simp [failsThenSucceeds]; omega) he
      (max_retries + 1) 0 [] (Nat.zero_le _) (by omega)
    simpa [retry_with_exponential_backoff] using h
  have hwaits : (retry_with_exponential_backoff (failsThenSucceeds k e a)
      retryable_draft max_retries d).2 = waitsFrom d 0 (min k max_retries) := by
    rcases le_or_lt k max_retries with hk | hk
    · rw [hok hk, Nat.min_eq_left hk]
    · rw [herr hk, Nat.min_eq_right (Nat.le_of_lt hk)]
  refine ⟨hwaits, ?_, hok, herr⟩
  intro j hj1 hj2
  rw [hwaits, waitsFrom_get? d (min k max_retries) 0 (j - 2) (by omega)]
  rw [Nat.zero_add]

/-- Claim C2 counterexample: with `max_retries = 5`, an operation that fails
transiently exactly `k = 5` times and then succeeds makes the wrapped call
SUCCEED on its sixth attempt (after the five backoff delays 1, 2, 4, 8,
16); the claim's boundary "max_attempts ≤ k ⇒ the error propagates"
predicts a propagated error at k = 5. -/
theorem c2_counterexample :
    retry_with_exponential_backoff
        (failsThenSucceeds 5 (PyErr.internalServerError ("overloaded_error"))
          (("sent") : String)) retryable_draft 5 1
      = (Except.ok ("sent"), [1, 2, 4, 8, 16]) := rfl

/-- Claim C2 witness: a call failing 3 times with `max_retries = 5` succeeds
after delays 1, 2, 4; a call failing 7 times exhausts the 5 retries and the
original error propagates unchanged after delays 1, 2, 4, 8, 16. -/
theorem c2_retry_policy_witness :
    retry_with_exponential_backoff
        (failsThenSucceeds 3 (PyErr.internalServerError ("overloaded_error"))
          (("sent") : String)) retryable_draft 5 1
      = (Except.ok ("sent"), [1, 2, 4]) ∧
    retry_with_exponential_backoff
        (failsThenSucceeds 7 (PyErr.otherExc ("boom")) (("sent") : String))
        retryable_draft 5 1
      = (Except.error (PyErr.otherExc ("boom")), [1, 2, 4, 8, 16]) := by
  constructor
  · exact (c2_retry_policy 3 5 1 (PyErr.internalServerError ("overloaded_error"))
      (("sent") : String) (by decide)).2.2.1 (by omega)
  · exact (c2_retry_policy 7 5 1 (PyErr.otherExc ("boom"))
      (("sent") : String) (by decide)).2.2.2 (by omega)

/-- Claim C3 (amended): a protocol violation (generation capability returns
no tool call) in the drafting stage IS absorbed by the retry policy's
generic exception clause: for a non-personal email the `ValueError` is
retried `max_retries` times with full exponential backoff and only then
propagated, wrapped in a new hard-failure `ValueError`; only for a
low-stakes-personal email does the stage-local fallback synthesize a reply
on the very first call, with no retry at all. -/
theorem c3_protocol_violation_is_retried (max_retries d : Nat) (email : Email)
    (m : Msg) (name : String) (hm : m.tool_calls = []) :
    (is_personal_email email = false →
      draft_llm_step (fun _ => Except.ok m) email name max_retries d
        = (Except.error (PyErr.valueError
            (("Failed to get valid tool call from LLM after retries. Last error: ")
              ++ noToolCallErrMsg)),
           waitsFrom d 0 max_retries)) ∧
    (is_personal_email email = true →
      draft_llm_step (fun _ => Except.ok m) email name max_retries d
        = (Except.ok (fallback_response_msg email name ("response_draft_tool_call")),
           [])) := by
  constructor
  · intro hp
    have hop : ∀ n, n ≤ max_retries →
        invoke_llm_with_retry (fun _ => Except.ok m) email name n
          = Except.error (PyErr.valueError noToolCallErrMsg) := by
      intro n _
      simp [invoke_llm_with_retry, hm, hp]
    have hr := retryGo_err (invoke_llm_with_retry (fun _ => Except.ok m) email name)
      retryable_draft (PyErr.valueError noToolCallErrMsg) max_retries d hop rfl
      (max_retries + 1) 0 [] (Nat.zero_le _) (by omega)
    unfold draft_llm_step retry_with_exponential_backoff
    rw [hr]
    simp [hp, errStr]
  · intro hp
    simp [draft_llm_step, retry_with_exponential_backoff, retryGo,
      invoke_llm_with_retry, hm, hp]

/-- Claim C3 counterexample: the generation capability persistently
returning a tool-call-free message for a clearly non-personal email is
retried five times by the retry policy itself (backoff delays 1, 2, 4, 8,
16) before the hard failure is raised — it is neither handled without
retry nor propagated immediately. -/
theorem c3_counterexample :
    draft_llm_step (fun _ => Except.ok noToolMsg) nonPersonalEmail ("Aryan") 5 1
      = (Except.error (PyErr.valueError
          ("Failed to get valid tool call from LLM after retries. Last error: LLM did not return a tool call.")),
         [1, 2, 4, 8, 16]) := rfl

/-- Claim C3 witness: the retried-then-wrapped hard failure for a
non-personal email, and the first-call fallback (no delays) for a personal
one. -/
theorem c3_witness :
    draft_llm_step (fun _ => Except.ok noToolMsg) nonPersonalEmail ("Aryan") 3 1
      = (Except.error (PyErr.valueError
          ("Failed to get valid tool call from LLM after retries. Last error: LLM did not return a tool call.")),
         [1, 2, 4]) ∧
    draft_llm_step (fun _ => Except.ok noToolMsg) personalEmail ("Aryan") 3 1
      = (Except.ok (fallback_response_msg personalEmail ("Aryan")
          ("response_draft_tool_call")), []) := by
  constructor
  · exact (c3_protocol_violation_is_retried 3 1 nonPersonalEmail noToolMsg
      ("Aryan") rfl).1 (by decide)
  · exact (c3_protocol_violation_is_retried 3 1 personalEmail noToolMsg
      ("Aryan") rfl).2 (by decide)

/-- Claim C6: whenever `triage_input` runs on a state with a non-empty
message list its update carries a `RemoveMessage` id for every existing
message together with the new decision; on an empty list it carries only
the decision and removes nothing. -/
theorem c6_retriage_bulk_remove (llm : RespondTo) (email : Email)
    (messages : List Msg) :
    (messages ≠ [] →
      (triage_input llm email messages).1.removeIds
        = messages.map fun m => m.id) ∧
    (messages = [] → (triage_input llm email messages).1.removeIds = []) ∧
    ((triage_input llm email messages).1.triage
      = if should_ignore_immediately email then promoIgnoreResponse else llm) := by
  by_cases hig : should_ignore_immediately email
  · refine ⟨fun hne => ?_, fun he => ?_, ?_⟩
    · simp [triage_input, hig, List.length_pos.mpr hne]
    · subst he
      simp [triage_input, hig]
    · simp [triage_input, hig]
  · refine ⟨fun hne => ?_, fun he => ?_, ?_⟩
    · simp [triage_input, hig, List.length_pos.mpr hne]
    · subst he
      simp [triage_input, hig]
    · simp [triage_input, hig]

/-- Claim C6 witness: a re-triage over two logged messages removes exactly
their ids; a first triage over an empty log removes nothing. -/
theorem c6_witness :
    (triage_input promoIgnoreResponse c1Email
        [{ kind := MsgKind.ai, id := ("m1"), content := (""), tool_calls := [] },
         { kind := MsgKind.human, id := ("m2"), content := ("yes"), tool_calls := [] }]).1.removeIds
      = [("m1"), ("m2")] ∧
    (triage_input promoIgnoreResponse c1Email []).1.removeIds = [] := by
  constructor
  · exact (c6_retriage_bulk_remove promoIgnoreResponse c1Email
      [{ kind := MsgKind.ai, id := ("m1"), content := (""), tool_calls := [] },
       { kind := MsgKind.human, id := ("m2"), content := ("yes"), tool_calls := [] }]).1
      (List.cons_ne_nil _ _)
  · exact (c6_retriage_bulk_remove promoIgnoreResponse c1Email []).2.1 rfl

/-- Claim C4: after the human checkpoint, `enter_after_human` routes by the
tail of the action log — an AI message whose leading tool call is
`ResponseEmailDraft` goes to `send_email_node`, `SendCalendarInvite` goes
to `send_cal_invite_node`, `Ignore` goes to `mark_as_read_node` (whose
unconditional edge terminates the run at `END`), and an appended
human-provided message goes back to `draft_response`. -/
theorem c4_enter_after_human_routes (state : GState) :
    (∀ m tc, state.messages.getLast? = some m → m.kind = MsgKind.ai →
      m.tool_calls.head? = some tc →
      ((tc.name = ("ResponseEmailDraft") →
          enter_after_human state = ("send_email_node")) ∧
       (tc.name = ("SendCalendarInvite") →
          enter_after_human state = ("send_cal_invite_node")) ∧
       (tc.name = ("Ignore") →
          enter_after_human state = ("mark_as_read_node") ∧
            ((("mark_as_read_node"), END) ∈ graph_edges)))) ∧
    (∀ m, state.messages.getLast? = some m → m.kind = MsgKind.human →
      enter_after_human state = ("draft_response")) := by
  constructor
  · intro m tc h1 h2 h3
    refine ⟨fun hn => ?_, fun hn => ?_, fun hn => ⟨?_, by decide⟩⟩ <;>
      simp [enter_after_human, h1, h2, h3, hn]
  · intro m h1 h2
    simp [enter_after_human, h1, h2]

/-- Claim C4 witness: concrete resumed states for each resolution
category. -/
theorem c4_witness :
    enter_after_human c4RespState = ("send_email_node") ∧
    enter_after_human c4HumanState = ("draft_response") := by
  constructor
  · exact ((c4_enter_after_human_routes c4RespState).1 _ _ rfl rfl rfl).1 rfl
  · exact (c4_enter_after_human_routes c4HumanState).2 _ rfl rfl

/-- Claim C8: the three conditional-routing functions are deterministic —
they are pure functions of the state snapshot, so equal snapshots always
produce equal successor names. -/
theorem c8_routing_deterministic (s t : GState) (h : s = t) :
    route_after_triage s = route_after_triage t ∧
    take_action s = take_action t ∧
    enter_after_human s = enter_after_human t := by
  subst h
  exact ⟨rfl, rfl, rfl⟩

/-- Claim C8 witness: determinism instantiated on a concrete snapshot. -/
theorem c8_witness :
    route_after_triage c8State = route_after_triage c8State ∧
    take_action c8State = take_action c8State ∧
    enter_after_human c8State = enter_after_human c8State :=
  c8_routing_deterministic c8State c8State rfl

/-- Claim C9: when the drafting output carries no tool calls at all,
`take_action` routes to `mark_as_read_node` (not to the `bad_tool_name`
recovery node, and without failing), and `mark_as_read_node`'s
unconditional edge reaches `END`. -/
theorem c9_no_tool_calls_marks_read (state : GState) (m : Msg)
    (h1 : state.messages.getLast? = some m) (h2 : m.tool_calls = []) :
    take_action state = some ("mark_as_read_node") ∧
    take_action state ≠ some ("bad_tool_name") ∧
    ((("mark_as_read_node"), END) ∈ graph_edges) := by
  refine ⟨?_, ?_, by decide⟩
  · simp [take_action, h1, h2]
  · simp [take_action, h1, h2]

/-- Claim C9 witness: a concrete draft message without tool calls. -/
theorem c9_witness :
    take_action c9State = some ("mark_as_read_node") :=
  (c9_no_tool_calls_marks_read c9State noToolMsg rfl rfl).1

/-- Claim C10 counterexample: a state whose triage decision is `notify` but
whose email trips the promotional pre-filter (subject "newsletter", body
containing "unsubscribe") is routed by `route_after_triage` to
`mark_as_read_node`, not to the `notify` node the claim requires for every
non-upgraded notify decision. -/
theorem c10_counterexample :
    c10PromoState.triage.response = ("notify") ∧
    pyInL ("invitation") (lowerL c10PromoState.email.subject) = false ∧
    route_after_triage c10PromoState = ("mark_as_read_node") ∧
    (("mark_as_read_node") : String) ≠ ("notify") := by
  exact ⟨rfl, by decide, by decide, by decide⟩

/-- Claim C10 (amended): when the triage decision is `notify` AND the
promotional pre-filter does not fire on the email, `route_after_triage`
upgrades to `draft_response` exactly when the lower-cased subject contains
"invitation", one of the time markers "@", "at", "pm", "am", and one of
the career terms "assignment", "interview", "review", "job"; every other
such notify decision routes to the `notify` node. -/
theorem c10_notify_upgrade (state : GState)
    (h1 : should_ignore_immediately state.email = false)
    (h2 : state.triage.response = ("notify")) :
    (route_after_triage state = ("draft_response") ↔
      (pyInL ("invitation") (lowerL state.email.subject)
        && [("@"), ("at"), ("pm"), ("am")].any
            (fun m => pyInL m (lowerL state.email.subject))
        && [("assignment"), ("interview"), ("review"), ("job")].any
            (fun c => pyInL c (lowerL state.email.subject))) = true) ∧
    (route_after_triage state = ("notify") ↔
      ¬((pyInL ("invitation") (lowerL state.email.subject)
        && [("@"), ("at"), ("pm"), ("am")].any
            (fun m => pyInL m (lowerL state.email.subject))
        && [("assignment"), ("interview"), ("review"), ("job")].any
            (fun c => pyInL c (lowerL state.email.subject))) = true)) := by
  cases hA : pyInL ("invitation") (lowerL state.email.subject) <;>
  cases hB : [("@"), ("at"), ("pm"), ("am")].any
      (fun m => pyInL m (lowerL state.email.subject)) <;>
  cases hC : [("assignment"), ("interview"), ("review"), ("job")].any
      (fun c => pyInL c (lowerL state.email.subject)) <;>
    simp [route_after_triage, h1, h2, hA, hB, hC]

/-- Claim C10 witness: a notify decision on a career meeting invitation is
upgraded to `draft_response`; a notify decision on a plain status email
routes to `notify`. -/
theorem c10_witness :
    route_after_triage c10InviteState = ("draft_response") ∧
    route_after_triage c10PlainState = ("notify") := by
  constructor
  · exact ((c10_notify_upgrade c10InviteState (by decide) rfl).1).mpr (by decide)
  · exact ((c10_notify_upgrade c10PlainState (by decide) rfl).2).mpr (by decide)

/-- Claim C5: for every preference key the stages read
(`schedule_preferences`, `random_preferences`, `response_preferences` in
the drafting stage, `rewrite_instructions` in the rewrite stage), an
absent key makes the stage use the statically supplied config default and
write it back; a stored value is returned as-is on every read, with the
store left untouched, until something else overwrites it. -/
theorem c5_preference_lifecycle (cfg : Config) (s : Store) (aid : String) :
    (∀ key dflt, store_get s aid key = none →
      get_or_seed s aid key dflt
        = (dflt, store_put s aid key { data := some dflt })) ∧
    (∀ key dflt v, store_get s aid key = some { data := some v } →
      get_or_seed s aid key dflt = (v, s)) ∧
    (∀ key dflt dflt2,
      get_or_seed (store_put s aid key { data := some dflt }) aid key dflt2
        = (dflt, store_put s aid key { data := some dflt })) ∧
    (store_get s aid ("schedule_preferences") = none →
     store_get s aid ("random_preferences") = none →
     store_get s aid ("response_preferences") = none →
      (draft_response_prefs cfg s aid).1
        = (cfg.schedule_preferences, cfg.background_preferences,
           cfg.response_preferences) ∧
      store_get (draft_response_prefs cfg s aid).2 aid ("schedule_preferences")
        = some { data := some cfg.schedule_preferences } ∧
      store_get (draft_response_prefs cfg s aid).2 aid ("random_preferences")
        = some { data := some cfg.background_preferences } ∧
      store_get (draft_response_prefs cfg s aid).2 aid ("response_preferences")
        = some { data := some cfg.response_preferences }) ∧
    (∀ v1 v2 v3,
      store_get s aid ("schedule_preferences") = some { data := some v1 } →
      store_get s aid ("random_preferences") = some { data := some v2 } →
      store_get s aid ("response_preferences") = some { data := some v3 } →
      draft_response_prefs cfg s aid = ((v1, v2, v3), s)) ∧
    (store_get s aid ("rewrite_instructions") = none →
      rewrite_instructions_pref cfg s aid
        = (cfg.rewrite_preferences,
           store_put s aid ("rewrite_instructions")
             { data := some cfg.rewrite_preferences })) ∧
    (∀ v, store_get s aid ("rewrite_instructions") = some { data := some v } →
      rewrite_instructions_pref cfg s aid = (v, s)) := by
  refine ⟨fun key dflt h => get_or_seed_none s aid key dflt h,
    fun key dflt v h => get_or_seed_some s aid key dflt v h,
    fun key dflt dflt2 => get_or_seed_some _ aid key dflt2 dflt
      (store_get_put_same s aid key _),
    ?_, ?_, fun h => get_or_seed_none s aid _ _ h,
    fun v h => get_or_seed_some s aid _ _ v h⟩
  · intro h1 h2 h3
    have g1 := get_or_seed_none s aid ("schedule_preferences")
      cfg.schedule_preferences h1
    have h2a : store_get (store_put s aid ("schedule_preferences")
        { data := some cfg.schedule_preferences }) aid ("random_preferences")
        = none := by
      rw [store_get_put_ne s aid _ _ _ (by decide)]
      exact h2
    have g2 := get_or_seed_none _ aid ("random_preferences")
      cfg.background_preferences h2a
    have h3a : store_get (store_put (store_put s aid ("schedule_preferences")
        { data := some cfg.schedule_preferences }) aid ("random_preferences")
        { data := some cfg.background_preferences }) aid
        ("response_preferences") = none := by
      rw [store_get_put_ne _ aid _ _ _ (by decide),
        store_get_put_ne _ aid _ _ _ (by decide)]
      exact h3
    have g3 := get_or_seed_none _ aid ("response_preferences")
      cfg.response_preferences h3a
    refine ⟨?_, ?_, ?_, ?_⟩
    · simp only [draft_response_prefs, g1, g2, g3]
    · simp only [draft_response_prefs, g1, g2, g3]
      rw [store_get_put_ne _ aid _ _ _ (by decide),
        store_get_put_ne _ aid _ _ _ (by decide), store_get_put_same]
    · simp only [draft_response_prefs, g1, g2, g3]
      rw [store_get_put_ne _ aid _ _ _ (by decide), store_get_put_same]
    · simp only [draft_response_prefs, g1, g2, g3]
      rw [store_get_put_same]
  · intro v1 v2 v3 h1 h2 h3
    have g1 := get_or_seed_some s aid ("schedule_preferences")
      cfg.schedule_preferences v1 h1
    have g2 := get_or_seed_some s aid ("random_preferences")
      cfg.background_preferences v2 h2
    have g3 := get_or_seed_some s aid ("response_preferences")
      cfg.response_preferences v3 h3
    simp only [draft_response_prefs, g1, g2, g3]

/-- Claim C5 witness: on an empty store the drafting stage hands back the
three config defaults and seeds them; on the seeded store a second pass
returns the same values without the defaults being re-consulted; the
rewrite stage seeds its single key the same way. -/
theorem c5_witness :
    (draft_response_prefs cfgSample [] ("default")).1
      = (("sp"), ("bp"), ("rp")) ∧
    store_get (draft_response_prefs cfgSample [] ("default")).2 ("default")
        ("schedule_preferences") = some { data := some ("sp") } ∧
    rewrite_instructions_pref cfgSample [] ("default")
      = (("rw"), store_put [] ("default") ("rewrite_instructions")
          { data := some ("rw") }) := by
  refine ⟨?_, ?_, ?_⟩
  · exact ((c5_preference_lifecycle cfgSample [] ("default")).2.2.2.1
      rfl rfl rfl).1
  · exact ((c5_preference_lifecycle cfgSample [] ("default")).2.2.2.1
      rfl rfl rfl).2.1
  · exact (c5_preference_lifecycle cfgSample [] ("default")).2.2.2.2.2.1 rfl

/-- Claim C7: the rewrite stage's output message preserves the drafted
tool call's id, its name, and every argument other than `content`
unchanged, replacing only `content` with the externally rewritten text
(and keeps the message id and text of the prior assistant message). -/
theorem c7_rewrite_frame (rc : String) (state : GState) (cfg : Config)
    (s : Store) (aid : String) (prev : Msg) (tc : ToolCall) (out : Msg)
    (s2 : Store)
    (h1 : state.messages.getLast? = some prev)
    (h2 : prev.tool_calls.head? = some tc)
    (h3 : rewrite rc state cfg s aid = some (out, s2)) :
    out.id = prev.id ∧ out.content = prev.content ∧
    (out.tool_calls.map fun c => c.id) = [tc.id] ∧
    (out.tool_calls.map fun c => c.name) = [tc.name] ∧
    (out.tool_calls.map fun c => lookupArg c.args ("content")) = [some rc] ∧
    (∀ k, k ≠ ("content") →
      (out.tool_calls.map fun c => lookupArg c.args k)
        = [lookupArg tc.args k]) := by
  cases hc : lookupArg tc.args ("content") with
  | none => simp [rewrite, h1, h2, hc] at h3
  | some dr =>
    simp only [rewrite, h1, h2, hc, Option.some.injEq, Prod.mk.injEq] at h3
    obtain ⟨hm, hs⟩ := h3
    subst hm
    refine ⟨rfl, rfl, rfl, rfl, ?_, ?_⟩
    · simp [lookupArg_set_content]
    · intro k hk
      simp [lookupArg_set_content_ne _ _ _ hk]

/-- Claim C7 witness: rewriting the sample approved draft replaces only the
`content` argument; id, name and `new_recipients` survive unchanged. -/
theorem c7_witness :
    c7Out.id = respDraftMsg.id ∧ c7Out.content = respDraftMsg.content ∧
    (c7Out.tool_calls.map fun c => c.id) = [respDraftTc.id] ∧
    (c7Out.tool_calls.map fun c => c.name) = [respDraftTc.name] ∧
    (c7Out.tool_calls.map fun c => lookupArg c.args ("content"))
      = [some ("rewritten body")] ∧
    (c7Out.tool_calls.map fun c => lookupArg c.args ("new_recipients"))
      = [lookupArg respDraftTc.args ("new_recipients")] := by
  have h := c7_rewrite_frame ("rewritten body") c4RespState cfgSample []
    ("default") respDraftMsg respDraftTc c7Out
    (store_put [] ("default") ("rewrite_instructions")
      { data := some ("rw") }) rfl rfl rfl
  exact ⟨h.1, h.2.1, h.2.2.1, h.2.2.2.1, h.2.2.2.2.1,
    h.2.2.2.2.2 ("new_recipients") (by decide)⟩

end EAIA
